import Mathlib

/-!
Shallow embedding of the lease-based leader-election core of the
`resiliency-patterns` repository, together with theorems settling the
spec claims about it.

Two implementations are embedded:

* `LeaderElectionEx` — `examples/high-availability/leader-election/internal/leaderelection/lease.go`
  (the `LeaderElector` state machine with `LeaseConfig`, callbacks,
  `tryAcquireOrRenewLease`, `releaseLease`).
* `LeaderElectionFile` — `high-availability/leader-election/internal/leaderelection/file/lease.go`
  (the `leaderElector` with `AcquireLease` / `MonitorLease`).

Conventions of the embedding:

* The lock file is a single shared slot; its state is `Option String`:
  `none` when the file does not exist, `some data` when it exists with
  contents `data`.  `os.Remove` sets it to `none`; `os.OpenFile` with
  `O_CREATE|O_EXCL` succeeds exactly when it is `none`.
* Timestamps (`time.Now().Unix()`) and durations are modelled as `Int`
  in one common unit (seconds); `time.Since(time.Unix(ts,0)) > d`
  becomes `now - ts > d`.
* Transient I/O failures of a write are modelled by an injected
  boolean (`writeOk`): the Go call may return an error; the boolean
  says whether it succeeded on this attempt.
* Callbacks are modelled by counting their invocations
  (`started`/`stopped` counters for `OnStartedLeading`/`OnStoppedLeading`).
-/

/-! ## Go library primitives used by both implementations -/

/-- Numeric value of a list of decimal digit characters. -/
def digitsVal (ds : List Char) : Nat :=
  ds.foldl (fun a c => a * 10 + (c.toNat - 48)) 0

/-- Model of Go `strconv.ParseInt(s, 10, 64)`: an optional sign followed by
one or more decimal digits and nothing else, rejecting values outside the
signed 64-bit range. Returns `none` where Go returns an error. -/
def goParseInt (s : String) : Option Int :=
  let (neg, ds) :=
    match s.data with
    | '-' :: r => (true, r)
    | '+' :: r => (false, r)
    | l => (false, l)
  if ds.isEmpty then none
  else if ds.all Char.isDigit then
    let m : Nat := digitsVal ds
    if neg then
      if m ≤ 2 ^ 63 then some (-(m : Int)) else none
    else
      if m ≤ 2 ^ 63 - 1 then some (m : Int) else none
  else none

/-- Model of Go `fmt.Sprintf("%s:%d", identity, ts)`, the wire format of a
lease record in both implementations. `%d` of an `int64` agrees with
`toString : Int → String`. -/
def serializeLease (identity : String) (ts : Int) : String :=
  identity ++ ":" ++ toString ts

/-- Model of Go `fmt.Sscanf(data, "%s:%d", &identity, &timestamp)` as used by
the examples implementation to parse a lease record.  In Go's `fmt` scanning
language `%s` consumes the maximal run of non-space characters — it does not
stop at the `:` of the format string — so on input without whitespace the
`%s` verb consumes the whole input, the literal `:` then fails to match, and
`Sscanf` reports an error (modelled as `none`).  After a successful `%s` the
literal `:` must match exactly; `%d` then skips spaces and reads an optional
sign and a maximal non-empty digit run. -/
def sscanfStringColonInt (s : String) : Option (String × Int) :=
  let cs := s.data.dropWhile (fun c => c == ' ')
  let tok := cs.takeWhile (fun c => !c.isWhitespace)
  let rest := cs.drop tok.length
  if tok.isEmpty then none
  else
    match rest with
    | ':' :: r =>
      let r2 := r.dropWhile (fun c => c == ' ')
      let (neg, r3) :=
        match r2 with
        | '-' :: t => (true, t)
        | '+' :: t => (false, t)
        | t => (false, t)
      let ds := r3.takeWhile Char.isDigit
      if ds.isEmpty then none
      else some (String.mk tok, if neg then -(digitsVal ds : Int) else (digitsVal ds : Int))
    | _ => none

/-- Helper for `goSplitColon`: accumulate the current field (reversed). -/
def splitColonAux : List Char → List Char → List String
  | [], acc => [String.mk acc.reverse]
  | c :: rest, acc =>
    if c = ':' then String.mk acc.reverse :: splitColonAux rest []
    else splitColonAux rest (c :: acc)

/-- Model of Go `strings.Split(s, ":")`: the fields between every
occurrence of `:`; `[""]` for the empty string, `["", ""]` for `":"`. -/
def goSplitColon (s : String) : List String :=
  splitColonAux s.data []

/-- Parse of a lease record in the file-backed implementation:
`strings.Split(data, ":")` must give exactly two parts, and the second must
parse with `strconv.ParseInt`.  Returns the holder identity and timestamp. -/
def fileParseLease (data : String) : Option (String × Int) :=
  match goSplitColon data with
  | [h, tstr] =>
    match goParseInt tstr with
    | none => none
    | some ts => some (h, ts)
  | _ => none

/-! ## Examples implementation
(`examples/high-availability/leader-election/internal/leaderelection/lease.go`) -/

namespace LeaderElectionEx

/-- `LeaseConfig` from the examples implementation. -/
structure LeaseConfig where
  leaseDuration : Int
  renewDeadline : Int
  retryPeriod : Int
  lockName : String
  identity : String
  lockDir : String
deriving DecidableEq, Repr

/-- `DefaultLeaseDuration = 10 * time.Second`. -/
def DefaultLeaseDuration : Int := 10

/-- `DefaultRenewDeadline = 8 * time.Second`. -/
def DefaultRenewDeadline : Int := 8

/-- `DefaultRetryPeriod = 2 * time.Second`. -/
def DefaultRetryPeriod : Int := 2

/-- Result of `NewLeaderElector`: the constructor is total — it performs no
validation, only default substitution for zero-valued fields — and always
returns a runnable elector, modelled by its stored config and lock-file
path. -/
structure LeaderElectorInit where
  config : LeaseConfig
  lockFile : String
deriving DecidableEq, Repr

/-- `NewLeaderElector(config, callbacks)`: replaces zero durations and an
empty `LockDir` by defaults, computes the lock-file path, and returns the
elector.  There is no error return and no validation of `Identity`, of
sign of the durations, or of `RetryPeriod` against `LeaseDuration`. -/
def NewLeaderElector (config : LeaseConfig) : LeaderElectorInit :=
  let config := if config.leaseDuration = 0 then { config with leaseDuration := DefaultLeaseDuration } else config
  let config := if config.renewDeadline = 0 then { config with renewDeadline := DefaultRenewDeadline } else config
  let config := if config.retryPeriod = 0 then { config with retryPeriod := DefaultRetryPeriod } else config
  let config := if config.lockDir = "" then { config with lockDir := "/tmp" } else config
  { config := config
    lockFile := config.lockDir ++ "/" ++ config.lockName ++ ".lock" }

/-- `isLeaseExpired` of the examples implementation: read the lock file
(`none` = `os.ReadFile` error ⇒ expired), parse it with
`fmt.Sscanf(data, "%s:%d", ...)` (error ⇒ expired), else compare
`time.Since(time.Unix(timestamp, 0)) > leaseDuration`. -/
def isLeaseExpired (store : Option String) (now leaseDuration : Int) : Bool :=
  match store with
  | none => true
  | some data =>
    match sscanfStringColonInt data with
    | none => true
    | some (_, ts) => decide (now - ts > leaseDuration)

/-- Mutable per-elector state: the `isLeader` flag guarded by the mutex,
plus instrumentation: counters of `OnStartedLeading` / `OnStoppedLeading`
invocations and the time of the last successful write of this elector's
own record (acquisition or renewal). -/
structure EState where
  isLeader : Bool
  started : Nat
  stopped : Nat
  lastRenew : Option Int
deriving DecidableEq, Repr

/-- Initial state of a fresh elector: follower, no callbacks fired. -/
def initE : EState :=
  { isLeader := false, started := 0, stopped := 0, lastRenew := none }

/-- `becomeLeader`: set `isLeader` and invoke `OnStartedLeading`. -/
def becomeLeader (s : EState) (now : Int) : EState :=
  { s with isLeader := true, started := s.started + 1, lastRenew := some now }

/-- `stepDown`: clear `isLeader`; invoke `OnStoppedLeading` only if the flag
was set (`wasLeader`). -/
def stepDown (s : EState) : EState :=
  { s with isLeader := false
           stopped := if s.isLeader then s.stopped + 1 else s.stopped }

/-- The `os.OpenFile(lockFile, O_CREATE|O_EXCL|O_WRONLY, 0644)` attempt
followed by `WriteString` in `tryAcquireLease`: exclusive create succeeds
only when the file does not exist; on a write error (`writeOk = false`) the
partially created file is removed (`os.Remove`) and the attempt fails. -/
def openExclAndWrite (identity : String) (now : Int) (writeOk : Bool)
    (store : Option String) : Bool × Option String :=
  match store with
  | some data => (false, some data)
  | none =>
    if writeOk then (true, some (serializeLease identity now))
    else (false, none)

/-- `tryAcquireLease`: if `os.Stat` finds the lock file and the lease is not
expired, give up; otherwise (expired, or no file) attempt the exclusive
create.  Note that when the file exists the `O_EXCL` create fails no matter
what the expiry check said. -/
def tryAcquireLease (identity : String) (leaseDuration : Int)
    (store : Option String) (now : Int) (writeOk : Bool) : Bool × Option String :=
  match store with
  | some data =>
    if !isLeaseExpired (some data) now leaseDuration then (false, some data)
    else openExclAndWrite identity now writeOk (some data)
  | none => openExclAndWrite identity now writeOk none

/-- `renewLease`: fail if `os.Stat` cannot find the lock file; otherwise
`os.WriteFile` the fresh record unconditionally — no comparison of the
stored holder with our identity.  A write error (`writeOk = false`) fails
the renewal, leaving the previous contents. -/
def renewLease (identity : String) (store : Option String) (now : Int)
    (writeOk : Bool) : Bool × Option String :=
  match store with
  | none => (false, none)
  | some data =>
    if writeOk then (true, some (serializeLease identity now))
    else (false, some data)

/-- The tail of `tryAcquireOrRenewLease` shared by followers and by a
leader that just stepped down: `if le.tryAcquireLease() { le.becomeLeader() }`. -/
def acquirePhase (identity : String) (leaseDuration : Int)
    (s : EState) (store : Option String) (now : Int)
    (acquireOk : Bool) : EState × Option String :=
  match tryAcquireLease identity leaseDuration store now acquireOk with
  | (true, store') => (becomeLeader s now, store')
  | (false, store') => (s, store')

/-- One tick of `tryAcquireOrRenewLease`: a leader first renews (success
keeps leadership and returns); a failed renewal steps down immediately and
falls through to the acquisition path shared with followers.
`renewOk`/`acquireOk` inject transient write failures of the respective
store operations. -/
def tryAcquireOrRenewLease (identity : String) (leaseDuration : Int)
    (s : EState) (store : Option String) (now : Int)
    (renewOk acquireOk : Bool) : EState × Option String :=
  if s.isLeader then
    match renewLease identity store now renewOk with
    | (true, store') => ({ s with lastRenew := some now }, store')
    | (false, store') => acquirePhase identity leaseDuration (stepDown s) store' now acquireOk
  else
    acquirePhase identity leaseDuration s store now acquireOk

/-- `releaseLease` (run when the `Run` loop observes cancellation): step
down if leader, then `os.Remove` the lock file unconditionally — whatever
its contents and whoever wrote them. -/
def releaseLease (s : EState) (_store : Option String) : EState × Option String :=
  ((if s.isLeader then stepDown s else s), none)

end LeaderElectionEx

/-! ## File-backed implementation
(`high-availability/leader-election/internal/leaderelection/file/lease.go`) -/

namespace LeaderElectionFile

/-- `leaseDuration = 10 * time.Second`. -/
def leaseDuration : Int := 10

/-- `retryPeriod = 2 * time.Second`. -/
def retryPeriod : Int := 2

/-- The `leaderElector` value: identity plus lock-file path. -/
structure Elector where
  identity : String
  lockFile : String
deriving DecidableEq, Repr

/-- `NewLeaderElector(nodeID)`: rejects only an empty `nodeID`
(`"nodeID is required"`); no other validation exists (the durations are
package constants). -/
def NewLeaderElector (nodeID : String) : Except String Elector :=
  if nodeID = "" then .error "nodeID is required"
  else .ok { identity := nodeID, lockFile := "/tmp/leader-election-demo.lock" }

/-- `isLeaseExpired`: `os.ReadFile` error ⇒ expired; `strings.Split` not
yielding exactly two parts ⇒ expired; bad timestamp ⇒ expired; otherwise
`time.Since(time.Unix(timestamp, 0)) > leaseDuration`. -/
def isLeaseExpired (store : Option String) (now ld : Int) : Bool :=
  match store with
  | none => true
  | some data =>
    match goSplitColon data with
    | [_, tstr] =>
      match goParseInt tstr with
      | none => true
      | some ts => decide (now - ts > ld)
    | _ => true

/-- `tryAcquireLease` of the file-backed implementation — structurally the
same as the examples one: stat, expiry check, then `O_CREATE|O_EXCL` create
(which fails whenever the file exists) and write. -/
def tryAcquireLease (identity : String) (store : Option String) (now : Int)
    (writeOk : Bool) : Bool × Option String :=
  match store with
  | some data =>
    if !isLeaseExpired (some data) now leaseDuration then (false, some data)
    else LeaderElectionEx.openExclAndWrite identity now writeOk (some data)
  | none => LeaderElectionEx.openExclAndWrite identity now writeOk none

/-- `isCurrentLeader`: read and split the record; exactly two parts, the
holder must equal our identity, the timestamp must parse, and the lease
must still be valid (`time.Since(leaseTime) <= leaseDuration`).  Any read
or parse problem yields `false`. -/
def isCurrentLeader (identity : String) (store : Option String) (now ld : Int) : Bool :=
  match store with
  | none => false
  | some data =>
    match goSplitColon data with
    | [h, tstr] =>
      if h ≠ identity then false
      else
        match goParseInt tstr with
        | none => false
        | some ts => decide (now - ts ≤ ld)
    | _ => false

/-- `shouldRenewLease`: renew once more than half the lease duration has
passed since the recorded timestamp; any read/parse problem ⇒ `false`. -/
def shouldRenewLease (store : Option String) (now ld : Int) : Bool :=
  match store with
  | none => false
  | some data =>
    match goSplitColon data with
    | [_, tstr] =>
      match goParseInt tstr with
      | none => false
      | some ts => decide (now - ts > ld / 2)
    | _ => false

/-- `renewLease`: `os.WriteFile` of the fresh record, unconditionally — no
stat, no holder comparison; creates the file even if it is absent.  Returns
the store error (`none` = success). -/
def renewLease (identity : String) (now : Int) (writeOk : Bool)
    (store : Option String) : Option String × Option String :=
  if writeOk then (none, some (serializeLease identity now))
  else (some "write error", store)

/-- Outcome of one `MonitorLease` ticker iteration. -/
inductive MonitorOutcome where
  | stoppedMonitoring
  | continuing
deriving DecidableEq, Repr

/-- One ticker iteration of `MonitorLease`: if `isCurrentLeader()` is false,
invoke `onShutdown` and `os.Remove` the lock file unconditionally, then
return; otherwise renew when `shouldRenewLease()`. -/
def monitorLeaseTick (identity : String) (store : Option String) (now : Int)
    (renewOk : Bool) : MonitorOutcome × Option String :=
  if !isCurrentLeader identity store now leaseDuration then
    (.stoppedMonitoring, none)
  else if shouldRenewLease store now leaseDuration then
    (.continuing, (renewLease identity now renewOk store).2)
  else
    (.continuing, store)

/-- The `ctx.Done()` arm of `MonitorLease`: `os.Remove` the lock file
unconditionally and stop. -/
def monitorLeaseCancel (_store : Option String) : MonitorOutcome × Option String :=
  (.stoppedMonitoring, none)

end LeaderElectionFile

/-! ## Multi-elector system (examples implementation)

Several `LeaderElector` instances run their `Run` loops against the same
lock file.  Each atomic step is one elector's full ticker iteration
(`tryAcquireOrRenewLease`), one elector's cancellation cleanup
(`releaseLease`), or the passage of time. -/

namespace LeaderElectionEx

/-- Global state: the per-elector mutable states, the shared lock file, and
the clock. -/
structure Sys (n : Nat) where
  electors : Fin n → EState
  store : Option String
  now : Int

/-- One atomic step of the system. -/
inductive Action (n : Nat) where
  | tick (i : Fin n) (renewOk acquireOk : Bool)
  | release (i : Fin n)
  | advance (d : Nat)
deriving DecidableEq, Repr

/-- Interpretation of one action: `ids` gives each elector's configured
identity, `ld` the (shared) lease duration. -/
def stepSys {n : Nat} (ids : Fin n → String) (ld : Int) (sys : Sys n) : Action n → Sys n
  | .tick i renewOk acquireOk =>
    { electors := Function.update sys.electors i
        (tryAcquireOrRenewLease (ids i) ld (sys.electors i) sys.store sys.now renewOk acquireOk).1
      store := (tryAcquireOrRenewLease (ids i) ld (sys.electors i) sys.store sys.now renewOk acquireOk).2
      now := sys.now }
  | .release i =>
    { electors := Function.update sys.electors i (releaseLease (sys.electors i) sys.store).1
      store := (releaseLease (sys.electors i) sys.store).2
      now := sys.now }
  | .advance d => { sys with now := sys.now + (d : Int) }

/-- Run a list of actions from a starting system state. -/
def runTrace {n : Nat} (ids : Fin n → String) (ld : Int) (sys : Sys n) : List (Action n) → Sys n
  | [] => sys
  | a :: rest => runTrace ids ld (stepSys ids ld sys a) rest

/-- All electors freshly constructed, no lock file, clock at `startNow`. -/
def initSys (n : Nat) (startNow : Int) : Sys n :=
  { electors := fun _ => initE, store := none, now := startNow }

/-- At most one elector's `IsLeader()` is `true`. -/
def atMostOneLeader {n : Nat} (sys : Sys n) : Prop :=
  ∀ i j : Fin n, (sys.electors i).isLeader = true → (sys.electors j).isLeader = true → i = j

/-- When the lock file is absent nobody is leader. -/
def storePresence {n : Nat} (sys : Sys n) : Prop :=
  sys.store = none → ∀ i, (sys.electors i).isLeader = false

/-- The inductive invariant for mutual exclusion. -/
def goodSys {n : Nat} (sys : Sys n) : Prop :=
  atMostOneLeader sys ∧ storePresence sys

/-- An action is holder-safe when a `releaseLease` (the unconditional
`os.Remove` run on cancellation) is performed only by the current leader. -/
def okActionB {n : Nat} (sys : Sys n) : Action n → Bool
  | .release i => (sys.electors i).isLeader
  | _ => true

/-- Every step of the trace is holder-safe in the state where it runs. -/
def holderSafeB {n : Nat} (ids : Fin n → String) (ld : Int) (sys : Sys n) :
    List (Action n) → Bool
  | [] => true
  | a :: rest => okActionB sys a && holderSafeB ids ld (stepSys ids ld sys a) rest

/-! ### Single-elector traces (for the callback counting invariant)

One elector driven by its own `Run` loop; the shared lock file as seen at
each of its steps is adversarial input (other processes may have changed
it between ticks), as are the clock and the injected write faults. -/

/-- One observable step of a single elector: a ticker iteration or the
cancellation cleanup, against whatever the shared file then contains. -/
inductive EAction where
  | tick (store : Option String) (now : Int) (renewOk acquireOk : Bool)
  | release (store : Option String)
deriving DecidableEq, Repr

/-- Run a single elector over a list of steps. -/
def runE (identity : String) (ld : Int) : EState → List EAction → EState
  | s, [] => s
  | s, .tick store now rOk aOk :: rest =>
    runE identity ld (tryAcquireOrRenewLease identity ld s store now rOk aOk).1 rest
  | s, .release store :: rest =>
    runE identity ld (releaseLease s store).1 rest

/-- The callback-count relation: `started` exceeds `stopped` by exactly the
leadership bit. -/
def counterInv (s : EState) : Prop :=
  s.started = s.stopped + (if s.isLeader then 1 else 0)

/-! ### No takeover of a remaining lock file -/

/-- Whether an action is a `releaseLease` cleanup. -/
def isRelease {n : Nat} : Action n → Bool
  | .release _ => true
  | _ => false

/-- A system in which nobody currently leads but the lock file remains
(e.g. the previous holder's process crashed without cleanup). -/
def crashSys (n : Nat) (d : String) (t : Int) : Sys n :=
  { electors := fun _ => initE, store := some d, now := t }

/-! ## Concrete instances used to settle the claims -/


/-- Three competing identities `A`, `B`, `C`. -/
def exIds3 : Fin 3 → String := fun i =>
  match i with
  | ⟨0, _⟩ => "A"
  | ⟨1, _⟩ => "B"
  | ⟨2, _⟩ => "C"

/-- Two competing identities `A`, `B`. -/
def exIds2 : Fin 2 → String := fun i =>
  match i with
  | ⟨0, _⟩ => "A"
  | ⟨1, _⟩ => "B"

/-- `A` acquires; the follower `B` stops (its cleanup deletes `A`'s lock
file); `C` acquires the now-missing slot; `A` renews successfully. -/
def exC1Trace : List (Action 3) :=
  [.tick 0 true true, .advance 1, .release 1, .tick 2 true true,
   .advance 1, .tick 0 true true]

/-- A holder-safe trace: `A` acquires, later stops gracefully while leader,
then `B` takes over. -/
def exSafeTrace : List (Action 2) :=
  [.tick 0 true true, .advance 1, .tick 1 true true, .release 0,
   .tick 1 true true]

/-- `A` acquires at time 0 and then halts (no further steps, no `Stop`);
`B` keeps ticking after the lease has long expired. -/
def exC2Trace : List (Action 2) :=
  [.tick 0 true true, .advance 13, .tick 1 true true, .advance 2,
   .tick 1 true true]

/-- A configuration with an empty identity, a negative renew deadline and
`retryPeriod >= leaseDuration`: everything §7 calls a configuration
error. -/
def badConfig : LeaseConfig :=
  { leaseDuration := 5, renewDeadline := -1, retryPeriod := 7,
    lockName := "demo", identity := "", lockDir := "/tmp" }

/-! ### Shapes of a single tick -/

/-- With the lock file present, `tryAcquireLease` always fails and leaves
the file untouched: even when the expiry check passes, the
`O_CREATE|O_EXCL` open fails on the existing file. -/
theorem tryAcquireLease_of_present (identity : String) (ld : Int) (d : String)
    (now : Int) (writeOk : Bool) :
    tryAcquireLease identity ld (some d) now writeOk = (false, some d) := by
  simp only [tryAcquireLease, openExclAndWrite]
  split <;> rfl

/-- Leader tick, renewal write succeeds: stays leader, record overwritten. -/
theorem tick_leader_renew_ok (identity : String) (ld : Int) (s : EState)
    (d : String) (now : Int) (aOk : Bool) (hL : s.isLeader = true) :
    tryAcquireOrRenewLease identity ld s (some d) now true aOk
      = ({ s with lastRenew := some now }, some (serializeLease identity now)) := by
  simp [tryAcquireOrRenewLease, renewLease, hL]

/-- Leader tick, renewal write fails: steps down at once; the follow-up
acquisition attempt fails against the still-present file. -/
theorem tick_leader_renew_fail (identity : String) (ld : Int) (s : EState)
    (d : String) (now : Int) (aOk : Bool) (hL : s.isLeader = true) :
    tryAcquireOrRenewLease identity ld s (some d) now false aOk
      = (stepDown s, some d) := by
  simp [tryAcquireOrRenewLease, renewLease, hL, acquirePhase, tryAcquireLease_of_present]

/-- Leader tick with the lock file missing: the renewal's `os.Stat` fails,
the leader steps down, and the acquisition phase re-creates the file when
the write succeeds. -/
theorem tick_leader_no_file (identity : String) (ld : Int) (s : EState)
    (now : Int) (rOk : Bool) (hL : s.isLeader = true) :
    tryAcquireOrRenewLease identity ld s none now rOk true
      = (becomeLeader (stepDown s) now, some (serializeLease identity now)) := by
  simp [tryAcquireOrRenewLease, renewLease, hL, acquirePhase, tryAcquireLease,
    openExclAndWrite]

/-- Follower tick with the lock file present: nothing changes. -/
theorem tick_follower_present (identity : String) (ld : Int) (s : EState)
    (d : String) (now : Int) (rOk aOk : Bool) (hL : s.isLeader = false) :
    tryAcquireOrRenewLease identity ld s (some d) now rOk aOk = (s, some d) := by
  simp [tryAcquireOrRenewLease, hL, acquirePhase, tryAcquireLease_of_present]

/-- Follower tick, no lock file, write succeeds: acquires and becomes
leader. -/
theorem tick_follower_absent_ok (identity : String) (ld : Int) (s : EState)
    (now : Int) (rOk : Bool) (hL : s.isLeader = false) :
    tryAcquireOrRenewLease identity ld s none now rOk true
      = (becomeLeader s now, some (serializeLease identity now)) := by
  simp [tryAcquireOrRenewLease, hL, acquirePhase, tryAcquireLease, openExclAndWrite]

/-- Follower tick, no lock file, write fails: the partial file is removed
and the elector stays follower. -/
theorem tick_follower_absent_fail (identity : String) (ld : Int) (s : EState)
    (now : Int) (rOk : Bool) (hL : s.isLeader = false) :
    tryAcquireOrRenewLease identity ld s none now rOk false = (s, none) := by
  simp [tryAcquireOrRenewLease, hL, acquirePhase, tryAcquireLease, openExclAndWrite]

end LeaderElectionEx

namespace LeaderElectionEx

/-- Updating one elector with a state that is leader only if it already was
preserves `atMostOneLeader`. -/
theorem atMostOne_update_of_imp {n : Nat} (e : Fin n → EState) (i : Fin n) (s' : EState)
    (h1 : ∀ j k, (e j).isLeader = true → (e k).isLeader = true → j = k)
    (himp : s'.isLeader = true → (e i).isLeader = true) :
    ∀ j k, ((Function.update e i s') j).isLeader = true →
      ((Function.update e i s') k).isLeader = true → j = k := by
  intro j k hj hk
  by_cases hji : j = i <;> by_cases hki : k = i
  · rw [hji, hki]
  · rw [hji] at hj ⊢
    rw [Function.update_same] at hj
    rw [Function.update_noteq hki] at hk
    exact h1 i k (himp hj) hk
  · rw [hki] at hk ⊢
    rw [Function.update_same] at hk
    rw [Function.update_noteq hji] at hj
    exact h1 j i hj (himp hk)
  · rw [Function.update_noteq hji] at hj
    rw [Function.update_noteq hki] at hk
    exact h1 j k hj hk

/-- Updating one elector when nobody was leader leaves at most that one
elector as a possible leader. -/
theorem atMostOne_update_solo {n : Nat} (e : Fin n → EState) (i : Fin n) (s' : EState)
    (hall : ∀ j, (e j).isLeader = false) :
    ∀ j k, ((Function.update e i s') j).isLeader = true →
      ((Function.update e i s') k).isLeader = true → j = k := by
  intro j k hj hk
  by_cases hji : j = i <;> by_cases hki : k = i
  · rw [hji, hki]
  · rw [Function.update_noteq hki] at hk
    exact absurd hk (by simp [hall k])
  · rw [Function.update_noteq hji] at hj
    exact absurd hj (by simp [hall j])
  · rw [Function.update_noteq hji] at hj
    exact absurd hj (by simp [hall j])

/-- One holder-safe step preserves the mutual-exclusion invariant. -/
theorem stepSys_good {n : Nat} (ids : Fin n → String) (ld : Int) (sys : Sys n)
    (a : Action n) (h : goodSys sys) (hok : okActionB sys a = true) :
    goodSys (stepSys ids ld sys a) := by
  obtain ⟨h1, h2⟩ := h
  cases a with
  | advance d =>
    exact ⟨h1, fun hs => h2 hs⟩
  | release i =>
    have hL : (sys.electors i).isLeader = true := hok
    constructor
    · exact atMostOne_update_of_imp _ _ _ h1
        (by simp [releaseLease, hL, stepDown])
    · intro _ j
      by_cases hji : j = i
      · subst hji
        simp [stepSys, releaseLease, hL, stepDown]
      · simp only [stepSys, Function.update_noteq hji]
        by_cases hjL : (sys.electors j).isLeader = true
        · exact absurd (h1 j i hjL hL) hji
        · simpa using hjL
  | tick i renewOk acquireOk =>
    by_cases hL : (sys.electors i).isLeader = true
    · -- the elector is leader, so the lock file is present
      obtain ⟨d, hd⟩ : ∃ d, sys.store = some d := by
        cases hs : sys.store with
        | none => exact absurd (h2 hs i) (by simp [hL])
        | some d => exact ⟨d, rfl⟩
      cases renewOk with
      | true =>
        constructor
        · refine atMostOne_update_of_imp _ _ _ h1 ?_
          rw [hd, tick_leader_renew_ok _ _ _ _ _ _ hL]
          intro _; exact hL
        · intro hs
          rw [show (stepSys ids ld sys (.tick i true acquireOk)).store
              = (tryAcquireOrRenewLease (ids i) ld (sys.electors i) sys.store sys.now true acquireOk).2
              from rfl, hd, tick_leader_renew_ok _ _ _ _ _ _ hL] at hs
          cases hs
      | false =>
        constructor
        · refine atMostOne_update_of_imp _ _ _ h1 ?_
          rw [hd, tick_leader_renew_fail _ _ _ _ _ _ hL]
          simp [stepDown]
        · intro hs
          rw [show (stepSys ids ld sys (.tick i false acquireOk)).store
              = (tryAcquireOrRenewLease (ids i) ld (sys.electors i) sys.store sys.now false acquireOk).2
              from rfl, hd, tick_leader_renew_fail _ _ _ _ _ _ hL] at hs
          cases hs
    · -- follower tick
      replace hL : (sys.electors i).isLeader = false := by
        cases hv : (sys.electors i).isLeader
        · rfl
        · exact absurd hv hL
      cases hs : sys.store with
      | some d =>
        constructor
        · refine atMostOne_update_of_imp _ _ _ h1 ?_
          rw [hs, tick_follower_present _ _ _ _ _ _ _ hL]
          intro hc; exact hc
        · intro hn
          rw [show (stepSys ids ld sys (.tick i renewOk acquireOk)).store
              = (tryAcquireOrRenewLease (ids i) ld (sys.electors i) sys.store sys.now renewOk acquireOk).2
              from rfl, hs, tick_follower_present _ _ _ _ _ _ _ hL] at hn
          cases hn
      | none =>
        have hall : ∀ j, (sys.electors j).isLeader = false := h2 hs
        cases acquireOk with
        | true =>
          constructor
          · exact atMostOne_update_solo _ _ _ hall
          · intro hn
            rw [show (stepSys ids ld sys (.tick i renewOk true)).store
                = (tryAcquireOrRenewLease (ids i) ld (sys.electors i) sys.store sys.now renewOk true).2
                from rfl, hs, tick_follower_absent_ok _ _ _ _ _ hL] at hn
            cases hn
        | false =>
          constructor
          · refine atMostOne_update_of_imp _ _ _ h1 ?_
            rw [hs, tick_follower_absent_fail _ _ _ _ _ hL]
            intro hc; exact hc
          · intro _ j
            by_cases hji : j = i
            · subst hji
              simp only [stepSys, Function.update_same]
              rw [hs, tick_follower_absent_fail _ _ _ _ _ hL]
              exact hL
            · simp only [stepSys, Function.update_noteq hji]
              exact hall j

/-- A holder-safe trace preserves the mutual-exclusion invariant. -/
theorem runTrace_good {n : Nat} (ids : Fin n → String) (ld : Int) (sys : Sys n)
    (acts : List (Action n)) (h : goodSys sys)
    (hsafe : holderSafeB ids ld sys acts = true) :
    goodSys (runTrace ids ld sys acts) := by
  induction acts generalizing sys with
  | nil => exact h
  | cons a rest ih =>
    rw [holderSafeB, Bool.and_eq_true] at hsafe
    exact ih _ (stepSys_good ids ld sys a h hsafe.1) hsafe.2

/-- The initial system satisfies the invariant. -/
theorem initSys_good (n : Nat) (startNow : Int) : goodSys (initSys n startNow) := by
  constructor
  · intro i j hi _
    exact absurd hi (by simp [initSys, initE])
  · intro _ i
    rfl

end LeaderElectionEx

namespace LeaderElectionEx

/-- Leader tick, lock file missing, acquisition write failing: the renewal's
stat fails, the leader steps down, and the re-acquisition also fails. -/
theorem tick_leader_no_file_fail (identity : String) (ld : Int) (s : EState)
    (now : Int) (rOk : Bool) (hL : s.isLeader = true) :
    tryAcquireOrRenewLease identity ld s none now rOk false = (stepDown s, none) := by
  simp [tryAcquireOrRenewLease, renewLease, hL, acquirePhase, tryAcquireLease,
    openExclAndWrite]

/-- One ticker iteration preserves the callback-count relation, whatever
the shared file contains and whichever writes fail. -/
theorem counterInv_tick (identity : String) (ld : Int) (s : EState)
    (store : Option String) (now : Int) (rOk aOk : Bool) (h : counterInv s) :
    counterInv (tryAcquireOrRenewLease identity ld s store now rOk aOk).1 := by
  unfold counterInv at h ⊢
  by_cases hL : s.isLeader = true
  · rw [if_pos hL] at h
    cases store with
    | some d =>
      cases rOk with
      | true => rw [tick_leader_renew_ok _ _ _ _ _ _ hL]; simpa [hL] using h
      | false =>
        rw [tick_leader_renew_fail _ _ _ _ _ _ hL]
        simp [stepDown, hL, h]
    | none =>
      cases aOk with
      | true =>
        rw [tick_leader_no_file _ _ _ _ _ hL]
        simp [becomeLeader, stepDown, hL, h]
      | false =>
        rw [tick_leader_no_file_fail _ _ _ _ _ hL]
        simp [stepDown, hL, h]
  · replace hL : s.isLeader = false := by
      cases hv : s.isLeader
      · rfl
      · exact absurd hv hL
    rw [if_neg (by simp [hL])] at h
    cases store with
    | some d => rw [tick_follower_present _ _ _ _ _ _ _ hL]; simp [hL, h]
    | none =>
      cases aOk with
      | true =>
        rw [tick_follower_absent_ok _ _ _ _ _ hL]
        simp [becomeLeader, h]
      | false =>
        rw [tick_follower_absent_fail _ _ _ _ _ hL]
        simp [hL, h]

/-- The cancellation cleanup preserves the callback-count relation. -/
theorem counterInv_release (s : EState) (store : Option String) (h : counterInv s) :
    counterInv (releaseLease s store).1 := by
  unfold counterInv at h ⊢
  by_cases hL : s.isLeader = true
  · rw [if_pos hL] at h
    simp [releaseLease, hL, stepDown, h]
  · replace hL : s.isLeader = false := by
      cases hv : s.isLeader
      · rfl
      · exact absurd hv hL
    rw [if_neg (by simp [hL])] at h
    simp [releaseLease, hL, h]

/-- The callback-count relation holds after any single-elector trace from
the initial state. -/
theorem counterInv_runE (identity : String) (ld : Int) (s : EState)
    (acts : List EAction) (h : counterInv s) :
    counterInv (runE identity ld s acts) := by
  induction acts generalizing s with
  | nil => exact h
  | cons a rest ih =>
    cases a with
    | tick store now rOk aOk =>
      exact ih _ (counterInv_tick identity ld s store now rOk aOk h)
    | release store =>
      exact ih _ (counterInv_release s store h)

/-- Without release steps, a present lock file and an all-follower elector
set are preserved by every step: the `O_EXCL` acquisition can never
succeed. -/
theorem noTakeover_step {n : Nat} (ids : Fin n → String) (ld : Int) (sys : Sys n)
    (a : Action n) (d : String) (hd : sys.store = some d)
    (hall : ∀ i, (sys.electors i).isLeader = false)
    (hnr : isRelease a = false) :
    (stepSys ids ld sys a).store = some d
      ∧ ∀ i, ((stepSys ids ld sys a).electors i).isLeader = false := by
  cases a with
  | advance e => exact ⟨hd, hall⟩
  | release i => exact absurd hnr (by simp [isRelease])
  | tick i rOk aOk =>
    constructor
    · show (tryAcquireOrRenewLease (ids i) ld (sys.electors i) sys.store sys.now rOk aOk).2 = some d
      rw [hd, tick_follower_present _ _ _ _ _ _ _ (hall i)]
    · intro j
      by_cases hji : j = i
      · rw [hji]
        show ((Function.update sys.electors i
          (tryAcquireOrRenewLease (ids i) ld (sys.electors i) sys.store sys.now rOk aOk).1) i).isLeader = false
        rw [Function.update_same, hd, tick_follower_present _ _ _ _ _ _ _ (hall i)]
        exact hall i
      · show ((Function.update sys.electors i _) j).isLeader = false
        rw [Function.update_noteq hji]
        exact hall j

/-- Without release steps, no elector ever becomes leader while a left-over
lock file persists, and the file's contents never change. -/
theorem noTakeover_runTrace {n : Nat} (ids : Fin n → String) (ld : Int) (sys : Sys n)
    (acts : List (Action n)) (d : String) (hd : sys.store = some d)
    (hall : ∀ i, (sys.electors i).isLeader = false)
    (hnr : acts.all (fun a => !isRelease a) = true) :
    (runTrace ids ld sys acts).store = some d
      ∧ ∀ i, ((runTrace ids ld sys acts).electors i).isLeader = false := by
  induction acts generalizing sys with
  | nil => exact ⟨hd, hall⟩
  | cons a rest ih =>
    rw [List.all_cons, Bool.and_eq_true] at hnr
    have hnra : isRelease a = false := by
      cases hv : isRelease a
      · rfl
      · exact absurd hv (by simpa using hnr.1)
    obtain ⟨hd', hall'⟩ := noTakeover_step ids ld sys a d hd hall hnra
    exact ih _ hd' hall' hnr.2

end LeaderElectionEx

/-! ## Claims -/

namespace LeaderElectionEx

/-- **C1, counterexample.**  The claim "at most one Elector whose last
successful renewal is within `leaseDuration` reports `IsLeader() == true`,
excepting the fencing gap of the unconditional-overwrite renewal" is false
as stated: after the follower `B`'s stop-time cleanup deletes the lock file
out from under the leader `A`, `C` acquires while `A` keeps renewing.  At
the end of `exC1Trace` (time 2, lease duration 10) electors `A` and `C`
both report leadership, with last successful renewals at times 2 and 1 —
both within the lease — and no elector ever paused past `leaseDuration`,
so the fencing-gap exception does not apply. -/
theorem mutual_exclusion_two_leaders_after_follower_release :
    ((runTrace exIds3 10 (initSys 3 0) exC1Trace).electors 0).isLeader = true
    ∧ ((runTrace exIds3 10 (initSys 3 0) exC1Trace).electors 2).isLeader = true
    ∧ ((runTrace exIds3 10 (initSys 3 0) exC1Trace).electors 0).lastRenew = some 2
    ∧ ((runTrace exIds3 10 (initSys 3 0) exC1Trace).electors 2).lastRenew = some 1
    ∧ (runTrace exIds3 10 (initSys 3 0) exC1Trace).now = 2
    ∧ (0 : Fin 3) ≠ 2 := by
  decide

/-- **C1, amended.**  Across N Electors sharing one lock name, at most one
reports `IsLeader() == true` at any time — in every execution in which each
stop-time `releaseLease` (whose `os.Remove` is unconditional) is run only
by an elector that is leader at that moment.  (Without that proviso a
stopping follower deletes the holder's lock file and a second simultaneous
leader becomes possible, as the counterexample shows.) -/
theorem mutual_exclusion_of_holder_safe_traces {n : Nat} (ids : Fin n → String)
    (ld : Int) (startNow : Int) (acts : List (Action n))
    (hsafe : holderSafeB ids ld (initSys n startNow) acts = true) :
    atMostOneLeader (runTrace ids ld (initSys n startNow) acts) :=
  (runTrace_good ids ld _ acts (initSys_good n startNow) hsafe).1

/-- Witness for the amended C1 on a concrete holder-safe trace with a
graceful leadership handover. -/
theorem mutual_exclusion_of_holder_safe_traces_witness :
    holderSafeB exIds2 10 (initSys 2 0) exSafeTrace = true
    ∧ atMostOneLeader (runTrace exIds2 10 (initSys 2 0) exSafeTrace) :=
  ⟨by decide, mutual_exclusion_of_holder_safe_traces exIds2 10 0 exSafeTrace (by decide)⟩

/-- **C2.**  The claimed failover never happens in the code: `A` acquires at
time 0 with `leaseDuration = 10` and `retryPeriod = 2` and then halts
without `Stop`; at times 13 and 15 — past
`leaseDuration + retryPeriod = 12` after the last successful renewal —
`B`'s acquisition attempts find the lock file, judge the lease expired, and
still fail, because the `O_CREATE|O_EXCL` create cannot succeed while the
file exists and nothing deletes it.  `B` remains follower and the stale
record `"A:0"` persists.  The file-backed implementation's single attempt
fails the same way. -/
theorem failover_never_occurs_after_leader_crash :
    ((runTrace exIds2 10 (initSys 2 0) exC2Trace).electors 1).isLeader = false
    ∧ (runTrace exIds2 10 (initSys 2 0) exC2Trace).store = some "A:0"
    ∧ (runTrace exIds2 10 (initSys 2 0) exC2Trace).now = 15
    ∧ ((15 : Int) - 0 > 10 + 2)
    ∧ LeaderElectionFile.tryAcquireLease "B" (some "A:0") 15 true = (false, some "A:0") := by
  refine ⟨by decide, by decide, by decide, by decide, by decide⟩

/-- **C3, counterexample.**  On a tick where the elector is Leader and the
renewal write fails (a transient store error), the claim says it remains
Leader until `now - lastSuccessfulRenewal > leaseDuration`.  The code steps
down at once: with last renewal at time 0, `now = 1`, `leaseDuration = 10`
(validity window far from elapsed), a single failed renewal leaves the
elector a Follower with `OnStoppedLeading` fired. -/
theorem leader_steps_down_immediately_on_renewal_failure :
    (tryAcquireOrRenewLease "A" 10
        { isLeader := true, started := 1, stopped := 0, lastRenew := some 0 }
        (some "A:0") 1 false true).1
      = { isLeader := false, started := 1, stopped := 1, lastRenew := some 0 }
    ∧ (1 : Int) - 0 ≤ 10 := by
  refine ⟨by decide, by decide⟩

/-- **C3, amended.**  On a tick where the elector is Leader and the renewal
store operation fails, it steps down immediately — `OnStoppedLeading` fires
on that very tick, regardless of how much of the lease's validity window
remains — and it ends the tick as Leader only by re-acquiring (firing
`OnStartedLeading`) in the same tick. -/
theorem renewal_failure_immediate_stepdown (identity : String) (ld : Int)
    (s : EState) (store : Option String) (now : Int) (rOk aOk : Bool)
    (hL : s.isLeader = true)
    (hfail : (renewLease identity store now rOk).1 = false) :
    (tryAcquireOrRenewLease identity ld s store now rOk aOk).1.stopped = s.stopped + 1
    ∧ ((tryAcquireOrRenewLease identity ld s store now rOk aOk).1.isLeader = true
        → (tryAcquireOrRenewLease identity ld s store now rOk aOk).1.started = s.started + 1) := by
  simp only [tryAcquireOrRenewLease, hL, if_true]
  rcases hr : renewLease identity store now rOk with ⟨b, st⟩
  rw [hr] at hfail
  cases b with
  | true => exact absurd hfail (by simp)
  | false =>
    rcases ha : tryAcquireLease identity ld st now aOk with ⟨c, st2⟩
    cases c with
    | true => simp [acquirePhase, ha, becomeLeader, stepDown, hL]
    | false => simp [acquirePhase, ha, stepDown, hL]

/-- Witness for the amended C3 at a concrete leader state and failing
renewal. -/
theorem renewal_failure_immediate_stepdown_witness :
    ({ isLeader := true, started := 1, stopped := 0, lastRenew := some 0 } : EState).isLeader = true
    ∧ (renewLease "A" (some "A:0") 1 false).1 = false
    ∧ (tryAcquireOrRenewLease "A" 10
        { isLeader := true, started := 1, stopped := 0, lastRenew := some 0 }
        (some "A:0") 1 false true).1.stopped = 0 + 1 :=
  ⟨rfl, by decide,
    (renewal_failure_immediate_stepdown "A" 10 _ (some "A:0") 1 false true rfl (by decide)).1⟩

end LeaderElectionEx

namespace LeaderElectionEx

/-- **C4, counterexample.**  Constructing an Elector from a configuration
with an empty identity, a negative `renewDeadline`, and
`retryPeriod >= leaseDuration` succeeds: `NewLeaderElector` returns an
elector carrying exactly that configuration (no field was even defaulted,
since none was zero), instead of failing. -/
theorem constructor_accepts_invalid_config :
    (NewLeaderElector badConfig).config = badConfig
    ∧ badConfig.identity = ""
    ∧ badConfig.retryPeriod ≥ badConfig.leaseDuration
    ∧ badConfig.renewDeadline < 0 := by
  refine ⟨by decide, by decide, by decide, by decide⟩

/-- **C4, amended.**  Only the file-backed constructor validates, and only
the identity: `NewLeaderElector(nodeID)` fails exactly when `nodeID` is
empty.  The examples constructor never fails; it keeps the identity as
given (empty or not) and substitutes defaults precisely for zero-valued
durations, accepting negative durations and
`retryPeriod >= leaseDuration`. -/
theorem constructor_validation_amended :
    (∀ nodeID : String,
      LeaderElectionFile.NewLeaderElector nodeID = Except.error "nodeID is required"
        ↔ nodeID = "")
    ∧ (∀ cfg : LeaseConfig,
        (NewLeaderElector cfg).config.identity = cfg.identity
        ∧ (NewLeaderElector cfg).config.leaseDuration
            = (if cfg.leaseDuration = 0 then DefaultLeaseDuration else cfg.leaseDuration)
        ∧ (NewLeaderElector cfg).config.renewDeadline
            = (if cfg.renewDeadline = 0 then DefaultRenewDeadline else cfg.renewDeadline)
        ∧ (NewLeaderElector cfg).config.retryPeriod
            = (if cfg.retryPeriod = 0 then DefaultRetryPeriod else cfg.retryPeriod)) := by
  constructor
  · intro nodeID
    unfold LeaderElectionFile.NewLeaderElector
    split
    · simp [*]
    · simp [*]
  · intro cfg
    simp only [NewLeaderElector]
    split <;> split <;> split <;> split <;> simp_all

/-- **C5.**  The write/parse pair of the examples implementation does not
round-trip: the record `"test-node-1:123"` written for identity
`test-node-1` at timestamp 123 is unparseable by its own
`fmt.Sscanf(data, "%s:%d", ...)` reader (greedy `%s` consumes the whole
token, so `Sscanf` errors), yielding neither the holder nor the timestamp —
while the sibling file-backed parser recovers both exactly from the same
bytes.  This contradicts the repository's own test, which expects a
freshly written lease not to be judged expired. -/
theorem lease_record_roundtrip_fails_in_examples_reader :
    sscanfStringColonInt (serializeLease "test-node-1" 123) = none
    ∧ fileParseLease (serializeLease "test-node-1" 123) = some ("test-node-1", 123) := by
  refine ⟨by decide, by decide⟩

/-- **C6.**  For any sequence of single-elector steps from the initial
state — each tick seeing an arbitrary shared-file state, clock value and
write-fault pattern — the number of `OnStartedLeading` invocations equals
the number of `OnStoppedLeading` invocations plus one exactly when the
elector is currently Leader (and equals it otherwise); in particular
`OnStoppedLeading` never fires if leadership was never gained. -/
theorem callback_count_invariant (identity : String) (ld : Int)
    (acts : List EAction) :
    (runE identity ld initE acts).started
      = (runE identity ld initE acts).stopped
        + (if (runE identity ld initE acts).isLeader then 1 else 0)
    ∧ ((runE identity ld initE acts).started = 0
        → (runE identity ld initE acts).stopped = 0) := by
  have h := counterInv_runE identity ld initE acts (by simp [counterInv, initE])
  unfold counterInv at h
  refine ⟨h, fun h0 => ?_⟩
  rw [h0] at h
  split at h <;> omega

/-- **C7.**  A fresh record (`now - renewedAt = 0 ≤ leaseDuration = 10`)
must be judged valid; the examples `isLeaseExpired` judges it expired
(its `Sscanf` parse always fails on the written format), breaking the
claimed "valid iff `now - renewedAt <= leaseDuration`" — whereas the
file-backed `isLeaseExpired`/`isCurrentLeader` judge the same bytes
valid, as the claim requires. -/
theorem valid_record_judged_expired_by_examples :
    isLeaseExpired (some (serializeLease "test-node-1" 123)) 123 10 = true
    ∧ ((123 : Int) - 123 ≤ 10)
    ∧ LeaderElectionFile.isLeaseExpired (some (serializeLease "test-node-1" 123)) 123 10 = false
    ∧ LeaderElectionFile.isCurrentLeader "test-node-1"
        (some (serializeLease "test-node-1" 123)) 123 10 = true := by
  refine ⟨by decide, by decide, by decide, by decide⟩

/-- **C8.**  Renewal is an unconditional overwrite in both implementations:
whatever record the lock file holds — in particular one just written by a
newly elected leader under a different identity — a successful renewal
replaces it with the renewer's own identity and the current time, with no
compare-and-swap on the stored holder. -/
theorem renewal_is_unconditional_overwrite :
    (∀ (identity d : String) (now : Int),
      renewLease identity (some d) now true = (true, some (serializeLease identity now)))
    ∧ (∀ (identity : String) (now : Int) (store : Option String),
      LeaderElectionFile.renewLease identity now true store
        = (none, some (serializeLease identity now)))
    ∧ renewLease "old-leader" (some (serializeLease "new-leader" 100)) 101 true
        = (true, some (serializeLease "old-leader" 101)) :=
  ⟨fun _ _ _ => rfl, fun _ _ _ => rfl, rfl⟩

end LeaderElectionEx

namespace LeaderElectionEx

/-- `tryAcquireLease` of the file-backed implementation also fails whenever
the lock file exists, leaving it untouched. -/
theorem file_tryAcquireLease_of_present (identity d : String) (now : Int)
    (writeOk : Bool) :
    LeaderElectionFile.tryAcquireLease identity (some d) now writeOk = (false, some d) := by
  simp only [LeaderElectionFile.tryAcquireLease, openExclAndWrite]
  split <;> rfl

/-- **C9.**  Whenever the lock file exists, `tryAcquireLease` returns
`false` and leaves the file as it was — in both implementations, for any
contents, even an expired record — because the `O_CREATE|O_EXCL` create
fails on an existing file and the expired file is never deleted first.
Consequently, from any state where the file remains but nobody leads
(e.g. after a leader crash), no elector ever becomes leader on any trace
without release steps, and the stale record persists unchanged. -/
theorem existing_lock_file_blocks_acquisition :
    (∀ (identity : String) (ld : Int) (d : String) (now : Int) (writeOk : Bool),
      tryAcquireLease identity ld (some d) now writeOk = (false, some d))
    ∧ (∀ (identity d : String) (now : Int) (writeOk : Bool),
      LeaderElectionFile.tryAcquireLease identity (some d) now writeOk = (false, some d))
    ∧ (∀ (n : Nat) (ids : Fin n → String) (ld : Int) (d : String) (t : Int)
        (acts : List (Action n)),
        acts.all (fun a => !isRelease a) = true →
        (runTrace ids ld (crashSys n d t) acts).store = some d
        ∧ ∀ i, ((runTrace ids ld (crashSys n d t) acts).electors i).isLeader = false) := by
  refine ⟨tryAcquireLease_of_present, file_tryAcquireLease_of_present, ?_⟩
  intro n ids ld d t acts hnr
  exact noTakeover_runTrace ids ld (crashSys n d t) acts d rfl (fun _ => rfl) hnr

/-- Witness for C9: a concrete left-over record `"A:0"` survives two ticks
of a competing elector and nobody becomes leader. -/
theorem existing_lock_file_blocks_acquisition_witness :
    tryAcquireLease "B" 10 (some "A:0") 13 true = (false, some "A:0")
    ∧ LeaderElectionFile.tryAcquireLease "B" (some "A:0") 13 true = (false, some "A:0")
    ∧ ([Action.tick (1 : Fin 2) true true, .advance 5, .tick 1 true true].all
        (fun a => !isRelease a) = true)
    ∧ (runTrace exIds2 10 (crashSys 2 "A:0" 11)
        [Action.tick (1 : Fin 2) true true, .advance 5, .tick 1 true true]).store = some "A:0" :=
  ⟨existing_lock_file_blocks_acquisition.1 "B" 10 "A:0" 13 true,
   existing_lock_file_blocks_acquisition.2.1 "B" "A:0" 13 true,
   by decide,
   (existing_lock_file_blocks_acquisition.2.2 2 exIds2 10 "A:0" 11
      [Action.tick (1 : Fin 2) true true, .advance 5, .tick 1 true true] (by decide)).1⟩

/-- **C10.**  Both cleanup paths delete the shared lock file without
checking that the deleting elector is the holder: a stopping Follower's
`releaseLease` removes whatever the file contains, and a file-backed
monitor that finds another identity in a still-valid record
(`isCurrentLeader` false because `holder ≠ identity`, with
`now - ts ≤ leaseDuration`) invokes `onShutdown` and removes that valid
record belonging to the other elector. -/
theorem release_deletes_lock_unconditionally :
    (∀ (s : EState) (d : String), s.isLeader = false →
      releaseLease s (some d) = (s, none))
    ∧ (∀ (identity d holder tstr : String) (ts now : Int) (renewOk : Bool),
        goSplitColon d = [holder, tstr] →
        goParseInt tstr = some ts →
        holder ≠ identity →
        now - ts ≤ LeaderElectionFile.leaseDuration →
        LeaderElectionFile.monitorLeaseTick identity (some d) now renewOk
          = (.stoppedMonitoring, none)) := by
  constructor
  · intro s d h
    simp [releaseLease, h]
  · intro identity d holder tstr ts now renewOk hsplit hts hother hvalid
    have hic : LeaderElectionFile.isCurrentLeader identity (some d) now
        LeaderElectionFile.leaseDuration = false := by
      simp only [LeaderElectionFile.isCurrentLeader, hsplit]
      rw [if_pos hother]
    simp [LeaderElectionFile.monitorLeaseTick, hic]

/-- Witness for C10: a follower removes the record `"A:5"`, and the monitor
of `B` removes `A`'s still-valid record. -/
theorem release_deletes_lock_unconditionally_witness :
    releaseLease initE (some "A:5") = (initE, none)
    ∧ LeaderElectionFile.monitorLeaseTick "B" (some "A:5") 6 true
        = (.stoppedMonitoring, none) :=
  ⟨release_deletes_lock_unconditionally.1 initE "A:5" rfl,
   release_deletes_lock_unconditionally.2 "B" "A:5" "A" "5" 5 6 true
     (by decide) (by decide) (by decide) (by decide)⟩

end LeaderElectionEx
